import Mathlib

/-!
Shallow embedding of the ticket-checker program (three near-identical Go
variants: a simple-marker notify-and-exit variant, a structural-marker
notify-and-continue variant, and a structural-marker auto-fill variant).
External effects (the browser run, the mail send, the auto-fill script run)
are modelled as explicit outcome parameters; each Go function becomes a pure
function of those outcomes, returning the values, logs, exit requests and
session actions the source produces.
-/

namespace TicketChecker

/-- Character-list prefix test, written out so that proofs can unfold it:
charsBeginWith pat s is true when pat is an initial segment of s. -/
def charsBeginWith : List Char → List Char → Bool
  | [], _ => true
  | _ :: _, [] => false
  | a :: pat, b :: s => a == b && charsBeginWith pat s

/-- charsContain pat s is true when pat occurs contiguously inside s. -/
def charsContain (pat : List Char) : List Char → Bool
  | [] => charsBeginWith pat []
  | b :: s => charsBeginWith pat (b :: s) || charsContain pat s

/-- Model of Go strings.Contains(s, pat): substring containment on the
character sequences of the two strings. -/
def goContains (s pat : String) : Bool :=
  charsContain pat.data s.data

/-- The first availability keyword hard-coded in the structural variants. -/
def remainKeyword : String := "剩餘"

/-- The second availability keyword hard-coded in the structural variants. -/
def hotSellKeyword : String := "熱賣中"

/-- The keyword set of the structural-marker variants; the source writes the
membership test as the two-way disjunction over these two literals. -/
def availabilityKeywords : List String := [remainKeyword, hotSellKeyword]

/-- The substring checkTicketAvailability looks for in an error message to
classify the failure as a benign wait timeout. -/
def deadlineExceededSubstr : String := "context deadline exceeded"

/-- Result of one availability probe, as the spec names it. In the source,
Available corresponds to returning true (the matched marker text is the one
the structural variants log), NotAvailable to returning false with a nil
error, and Error to returning a non-nil error. -/
inductive ProbeResult where
  | Available (text : String)
  | NotAvailable
  | Error (cause : String)
deriving DecidableEq, Repr

/-- Outcome of the chromedp.Run call of the structural variants: on success
the extracted font texts, otherwise the error message. -/
inductive RunOutcome where
  | ok (texts : List String)
  | err (msg : String)
deriving DecidableEq, Repr

/-- Outcome of the chromedp.Run call of the simple-marker variant: the wait
either succeeds (marker visible) or fails with an error message. -/
inductive SimpleRunOutcome where
  | ok
  | err (msg : String)
deriving DecidableEq, Repr

/-- The keyword scan of the structural variants: walk the extracted texts in
order and return the first one containing some keyword, if any. The source
hard-codes availabilityKeywords; the keyword list is a parameter here so the
scan can be stated for every configured keyword set. -/
def scanTexts (keywords : List String) : List String → Option String
  | [] => none
  | text :: rest =>
    if keywords.any (fun k => goContains text k) then some text
    else scanTexts keywords rest

/-- checkTicketAvailability of the structural variants, as a function of the
chromedp.Run outcome: a failing run whose message contains the deadline
substring is classified NotAvailable, any other failing run is an Error, and
a successful run scans the extracted texts for a keyword. -/
def checkTicketAvailability (keywords : List String) (run : RunOutcome) : ProbeResult :=
  match run with
  | RunOutcome.err msg =>
    if goContains msg deadlineExceededSubstr then ProbeResult.NotAvailable
    else ProbeResult.Error msg
  | RunOutcome.ok texts =>
    match scanTexts keywords texts with
    | some text => ProbeResult.Available text
    | none => ProbeResult.NotAvailable

/-- checkTicketAvailability of the simple-marker variant: mere visibility of
the marker is the positive signal, so a successful run is Available with no
marker text; failures are classified exactly as in the structural variants. -/
def checkTicketAvailabilitySimple (run : SimpleRunOutcome) : ProbeResult :=
  match run with
  | SimpleRunOutcome.ok => ProbeResult.Available ""
  | SimpleRunOutcome.err msg =>
    if goContains msg deadlineExceededSubstr then ProbeResult.NotAvailable
    else ProbeResult.Error msg

/-- Outcome of the mail collaborator's DialAndSend call. -/
inductive SendOutcome where
  | success
  | failure (msg : String)
deriving DecidableEq, Repr

/-- Outcome of the scripted chromedp.Run of autoFillAndWaitForCaptcha
(navigate, wait for the form, select a quantity, check the agree box, focus
the verification-code field): success, or the first failing step's error. -/
inductive AutoFillRun where
  | ok
  | err (msg : String)
deriving DecidableEq, Repr

/-- The fixed human-completion hold of autoFillAndWaitForCaptcha, in seconds:
the source sleeps for 3 minutes after the scripted steps succeed. -/
def humanCompletionWindowSeconds : Nat := 3 * 60

/-- Return value of autoFillAndWaitForCaptcha: the error of the first failing
scripted step is propagated to the caller; on success the function returns
nil after the hold window. -/
def autoFillAndWaitForCaptcha (run : AutoFillRun) : Except String Unit :=
  match run with
  | AutoFillRun.ok => Except.ok ()
  | AutoFillRun.err msg => Except.error msg

/-- Observable events of one autoFillAndWaitForCaptcha call, in order. -/
inductive AutoFillEvent where
  | scriptedSteps
  | holdOpen (seconds : Nat)
  | closeSession
  | returnControl
deriving DecidableEq, Repr

/-- Event trace of autoFillAndWaitForCaptcha. On success the source logs the
completion banner, sleeps for the full 3-minute window, and only then returns,
at which point the deferred cancels tear the interactive session down. On a
step failure it returns at once, the defers closing the session. -/
def autoFillTrace (run : AutoFillRun) : List AutoFillEvent :=
  match run with
  | AutoFillRun.ok =>
    [AutoFillEvent.scriptedSteps, AutoFillEvent.holdOpen humanCompletionWindowSeconds,
     AutoFillEvent.closeSession, AutoFillEvent.returnControl]
  | AutoFillRun.err _ =>
    [AutoFillEvent.scriptedSteps, AutoFillEvent.closeSession, AutoFillEvent.returnControl]

/-- Side effects of one runCheck cycle: how many notification emails were
attempted, whether the auto-fill sequencer was launched, whether and how the
process exited, whether the cycle replaced the background browser session,
and the manual-fallback log line if one was emitted. -/
structure CycleEffects where
  emailAttempts : Nat
  autoFillLaunched : Bool
  exitCode : Option Nat
  sessionReplaced : Bool
  fallbackLog : Option String
deriving DecidableEq, Repr

/-- The cycle that only logs and returns: no email, no auto-fill, no exit, the
background session untouched. -/
def noEffects : CycleEffects :=
  ⟨0, false, none, false, none⟩

/-- The manual-fallback log line of the auto-fill variant's runCheck, as
log.Println renders it: the fixed instruction, a space, the target URL. -/
def manualFallbackMsg (url : String) : String :=
  "請手動前往: " ++ url

/-- runCheck of the structural notify-and-continue variant: on a probe error
it logs and returns; on Available it makes exactly one send attempt and keeps
running whether or not the send succeeded. -/
def runCheckNotifyContinue (keywords : List String) (run : RunOutcome)
    (send : SendOutcome) : CycleEffects :=
  match checkTicketAvailability keywords run with
  | ProbeResult.Error _ => noEffects
  | ProbeResult.NotAvailable => noEffects
  | ProbeResult.Available _ =>
    match send with
    | SendOutcome.success => ⟨1, false, none, false, none⟩
    | SendOutcome.failure _ => ⟨1, false, none, false, none⟩

/-- runCheck of the simple-marker notify-and-exit variant: on Available it
makes exactly one send attempt; a successful send is followed by os.Exit(0),
a failed send is logged and the loop continues with no retry. -/
def runCheckNotifyExit (run : SimpleRunOutcome) (send : SendOutcome) : CycleEffects :=
  match checkTicketAvailabilitySimple run with
  | ProbeResult.Error _ => noEffects
  | ProbeResult.NotAvailable => noEffects
  | ProbeResult.Available _ =>
    match send with
    | SendOutcome.success => ⟨1, false, some 0, false, none⟩
    | SendOutcome.failure _ => ⟨1, false, none, false, none⟩

/-- runCheck of the auto-fill variant: on Available it launches the auto-fill
sequencer; if that fails it logs the manual-fallback instruction with the
target URL; in every case the loop continues and the background session is
left alone. -/
def runCheckAutoFill (keywords : List String) (url : String) (run : RunOutcome)
    (autoFill : AutoFillRun) : CycleEffects :=
  match checkTicketAvailability keywords run with
  | ProbeResult.Error _ => noEffects
  | ProbeResult.NotAvailable => noEffects
  | ProbeResult.Available _ =>
    match autoFillAndWaitForCaptcha autoFill with
    | Except.error _ => ⟨0, true, none, false, some (manualFallbackMsg url)⟩
    | Except.ok _ => ⟨0, true, none, false, none⟩

/-- State of the global background-session variables of the auto-fill
variant: the published allocator handle (browserAllocCtx and browserCancel),
the identities of the live background sessions, and a source of fresh
session identities. -/
structure BrowserState where
  current : Option Nat
  live : List Nat
  nextId : Nat
deriving DecidableEq, Repr

/-- State before initBrowser has ever run: no handle published, nothing live. -/
def initialBrowserState : BrowserState :=
  ⟨none, [], 0⟩

/-- initBrowser: under the mutex, first cancel any previously published
session (tearing it down), then create a fresh allocator and publish it. -/
def initBrowser (s : BrowserState) : BrowserState :=
  let liveAfterTeardown :=
    match s.current with
    | some id => s.live.filter (fun x => x != id)
    | none => s.live
  ⟨some s.nextId, liveAfterTeardown ++ [s.nextId], s.nextId + 1⟩

/-- The raw environment the full notify variant reads; os.Getenv yields the
empty string for an unset variable. -/
structure Env where
  targetUrlVar : String
  recipientEmailVar : String
  senderEmailVar : String
  senderPasswordVar : String
  smtpHostVar : String
  smtpPortVar : String
  checkIntervalVar : String
deriving DecidableEq, Repr

/-- The Config record the full notify variant builds (the check interval kept
in seconds; the source multiplies it by time.Second). -/
structure Config where
  targetURL : String
  recipientEmail : String
  senderEmail : String
  senderPassword : String
  smtpHost : String
  smtpPort : Int
  checkIntervalSeconds : Int
deriving DecidableEq, Repr

/-- Digits-to-number accumulator for the Atoi model. -/
def digitsToNat : List Char → Nat → Nat
  | [], acc => acc
  | c :: cs, acc => digitsToNat cs (acc * 10 + (c.toNat - 48))

/-- Model of Go strconv.Atoi: an optional sign followed by at least one ASCII
digit; anything else is a parse error. (Go additionally rejects values
overflowing a machine int, which no claim depends on.) -/
def goAtoi (s : String) : Option Int :=
  let core : List Char → Option Nat := fun cs =>
    if cs.isEmpty then none
    else if cs.all Char.isDigit then some (digitsToNat cs 0)
    else none
  match s.data with
  | '-' :: rest => (core rest).map (fun n => -(n : Int))
  | '+' :: rest => (core rest).map (fun n => (n : Int))
  | cs => (core cs).map (fun n => (n : Int))

/-- Model of strings.ReplaceAll(s, single-space, empty-string): every space
character is removed. -/
def stripSpaces (s : String) : String :=
  String.mk (s.data.filter (fun c => c != ' '))

/-- Default SMTP port string substituted when SMTP_PORT is unset. -/
def defaultSmtpPortStr : String := "587"

/-- Default check-interval string substituted when CHECK_INTERVAL_SECONDS is
unset. -/
def defaultIntervalStr : String := "60"

/-- loadConfig of the full notify variant: default the port and interval
strings, parse both as integers, strip spaces from the password, then reject
any empty required field; note that no lower bound is placed on the parsed
interval. Error strings are abbreviated stand-ins for the source's messages. -/
def loadConfig (env : Env) : Except String Config :=
  match goAtoi (if env.smtpPortVar = "" then defaultSmtpPortStr else env.smtpPortVar) with
  | none => Except.error "SMTP_PORT invalid"
  | some port =>
    match goAtoi (if env.checkIntervalVar = "" then defaultIntervalStr
        else env.checkIntervalVar) with
    | none => Except.error "CHECK_INTERVAL_SECONDS invalid"
    | some interval =>
      if env.targetUrlVar = "" then Except.error "TARGET_URL unset"
      else if env.recipientEmailVar = "" then Except.error "RECIPIENT_EMAIL unset"
      else if env.senderEmailVar = "" then Except.error "SENDER_EMAIL unset"
      else if stripSpaces env.senderPasswordVar = "" then
        Except.error "SENDER_PASSWORD unset"
      else if env.smtpHostVar = "" then Except.error "SMTP_HOST unset"
      else Except.ok ⟨env.targetUrlVar, env.recipientEmailVar, env.senderEmailVar,
        stripSpaces env.senderPasswordVar, env.smtpHostVar, port, interval⟩

/-- What main does with the loadConfig result: a load error is fatal
(log.Fatalf, non-zero exit) before the ticker or any check exists; a loaded
config proceeds to the scheduling loop. -/
inductive StartupOutcome where
  | fatalConfig (msg : String)
  | scheduling (config : Config)
deriving DecidableEq, Repr

/-- Startup of the full notify variant's main, up to entering the scheduler. -/
def mainStartup (env : Env) : StartupOutcome :=
  match loadConfig env with
  | Except.error msg => StartupOutcome.fatalConfig msg
  | Except.ok config => StartupOutcome.scheduling config

/-- True when startup died on a configuration error before scheduling. -/
def StartupOutcome.isFatal : StartupOutcome → Bool
  | StartupOutcome.fatalConfig _ => true
  | StartupOutcome.scheduling _ => false

/-- Timing of the scheduler loop. The first cycle starts at time 0 (runCheck
is called before the receive loop). The ticker fires at every positive
multiple of the interval into a one-slot channel, dropping fires while the
slot is full, so after a cycle ends the loop receives the earliest pending
fire, waiting for it if necessary: the next cycle starts at the maximum of
the cycle's end time and the earliest fire after the previous receive.
Arguments: the pending fire time, the current cycle's start time, and the
remaining cycle durations; returns the (start, end) pair of every cycle. -/
def scheduleAux (interval : Nat) : Nat → Nat → List Nat → List (Nat × Nat)
  | _, _, [] => []
  | pending, start, d :: ds =>
    let finish := start + d
    let received := max finish pending
    (start, finish) ::
      scheduleAux interval (interval * (received / interval + 1)) received ds

/-- Start and end times of the scheduler's cycles, given the tick interval
and each cycle's duration: the first cycle starts immediately at time 0 and
the first ticker fire is pending at one full interval. -/
def schedule (interval : Nat) (ds : List Nat) : List (Nat × Nat) :=
  scheduleAux interval interval 0 ds

/-- An environment whose every required setting is present but whose check
interval is the string 0: Atoi accepts it, so loadConfig accepts an interval
of zero seconds. -/
def c9BadEnv : Env :=
  ⟨"https://tixcraft.com/activity", "r@example.com", "s@example.com",
   "secret", "smtp.gmail.com", "", "0"⟩

/-- The configuration loadConfig builds from c9BadEnv: defaulted port 587 and
a zero-second check interval. -/
def c9BadConfig : Config :=
  ⟨"https://tixcraft.com/activity", "r@example.com", "s@example.com",
   "secret", "smtp.gmail.com", 587, 0⟩

/-- An environment with TARGET_URL unset and the defaults for port and
interval. -/
def envMissingTarget : Env :=
  ⟨"", "r@example.com", "s@example.com", "secret", "smtp.gmail.com", "", ""⟩

/-! Helper lemmas. -/

lemma charsBeginWith_self (l : List Char) : charsBeginWith l l = true := by
  induction l with
  | nil => rfl
  | cons c s ih => simp [charsBeginWith, ih]

lemma charsContain_self (l : List Char) : charsContain l l = true := by
  cases l with
  | nil => rfl
  | cons c s => simp [charsContain, charsBeginWith_self]

/-- A string occurs as a substring of anything it is appended to. -/
lemma charsContain_append_left (a b : List Char) : charsContain b (a ++ b) = true := by
  induction a with
  | nil => simpa using charsContain_self b
  | cons c a ih => simp [charsContain, ih]

/-- With the hard-coded keyword list, the scan's membership test is exactly
the source's literal two-way disjunction. -/
lemma availabilityKeywords_any (t : String) :
    (availabilityKeywords.any fun k => goContains t k) =
      (goContains t remainKeyword || goContains t hotSellKeyword) := by
  simp [availabilityKeywords]

lemma scanTexts_eq_none (keywords texts : List String)
    (h : ∀ t ∈ texts, ∀ k ∈ keywords, goContains t k = false) :
    scanTexts keywords texts = none := by
  induction texts with
  | nil => rfl
  | cons t rest ih =>
    have ht : (keywords.any fun k => goContains t k) = false := by
      simp only [List.any_eq_false, Bool.not_eq_true]
      exact fun k hk => h t (List.mem_cons_self t rest) k hk
    simp only [scanTexts, ht, Bool.false_eq_true, if_false]
    exact ih fun u hu k hk => h u (List.mem_cons_of_mem t hu) k hk

lemma scanTexts_isSome (keywords texts : List String) :
    (scanTexts keywords texts).isSome
      = texts.any (fun t => keywords.any fun k => goContains t k) := by
  induction texts with
  | nil => rfl
  | cons t rest ih =>
    by_cases ht : (keywords.any fun k => goContains t k) = true
    · simp [scanTexts, ht]
    · simp only [Bool.not_eq_true] at ht
      simp [scanTexts, ht, ih]

lemma scanTexts_first (keywords : List String) (t : String) :
    ∀ pre post : List String,
      (∀ u ∈ pre, ∀ k ∈ keywords, goContains u k = false) →
      (keywords.any fun k => goContains t k) = true →
      scanTexts keywords (pre ++ t :: post) = some t := by
  intro pre
  induction pre with
  | nil =>
    intro post _ ht
    simp [scanTexts, ht]
  | cons u pre ih =>
    intro post hpre ht
    have hu : (keywords.any fun k => goContains u k) = false := by
      simp only [List.any_eq_false, Bool.not_eq_true]
      exact fun k hk => hpre u (List.mem_cons_self u pre) k hk
    simp only [List.cons_append, scanTexts, hu, Bool.false_eq_true, if_false]
    exact ih post (fun v hv k hk => hpre v (List.mem_cons_of_mem u hv) k hk) ht

/-! Claim theorems. -/

/-- C1: for every configured keyword set K and every list of extracted marker
texts T, the structural-strategy probe is Available exactly when some element
of T contains a member of K as a substring; the first element of T (in
extraction order) containing a keyword is the reported marker text, and the
probe is NotAvailable when no element of T contains a keyword. -/
theorem c1_structural_probe_keyword_scan (K T : List String) :
    ((∃ t ∈ T, ∃ k ∈ K, goContains t k = true) ↔
      ∃ t, checkTicketAvailability K (RunOutcome.ok T) = ProbeResult.Available t) ∧
    (∀ pre t post, T = pre ++ t :: post →
      (∀ u ∈ pre, ∀ k ∈ K, goContains u k = false) →
      (∃ k ∈ K, goContains t k = true) →
      checkTicketAvailability K (RunOutcome.ok T) = ProbeResult.Available t) ∧
    ((∀ t ∈ T, ∀ k ∈ K, goContains t k = false) →
      checkTicketAvailability K (RunOutcome.ok T) = ProbeResult.NotAvailable) := by
  refine ⟨?_, ?_, ?_⟩
  · constructor
    · intro h
      have hs : (scanTexts K T).isSome = true := by
        rw [scanTexts_isSome]
        simp only [List.any_eq_true]
        obtain ⟨t, ht, k, hk, hc⟩ := h
        exact ⟨t, ht, k, hk, hc⟩
      obtain ⟨t, ht⟩ := Option.isSome_iff_exists.mp hs
      exact ⟨t, by simp [checkTicketAvailability, ht]⟩
    · intro h
      obtain ⟨t, ht⟩ := h
      simp only [checkTicketAvailability] at ht
      rcases hscan : scanTexts K T with _ | u
      · rw [hscan] at ht; cases ht
      · have hs : (scanTexts K T).isSome = true := by rw [hscan]; rfl
        rw [scanTexts_isSome] at hs
        simp only [List.any_eq_true] at hs
        obtain ⟨v, hv, k, hk, hc⟩ := hs
        exact ⟨v, hv, k, hk, hc⟩
  · intro pre t post hT hpre ht
    have ht' : (K.any fun k => goContains t k) = true := by
      simp only [List.any_eq_true]
      obtain ⟨k, hk, hc⟩ := ht
      exact ⟨k, hk, hc⟩
    rw [hT]
    simp [checkTicketAvailability, scanTexts_first K t pre post hpre ht']
  · intro h
    simp [checkTicketAvailability, scanTexts_eq_none K T h]

/-- Witness for C1: the spec's own scenario, with the hard-coded keyword set
of the source: texts Sold Out then 剩餘 5 張 yield Available 剩餘 5 張. -/
theorem c1_witness :
    checkTicketAvailability availabilityKeywords
        (RunOutcome.ok ["Sold Out", "剩餘 5 張"]) =
      ProbeResult.Available "剩餘 5 張" :=
  (c1_structural_probe_keyword_scan availabilityKeywords
        ["Sold Out", "剩餘 5 張"]).2.1 ["Sold Out"] "剩餘 5 張" [] rfl
    (by decide) ⟨remainKeyword, by decide, by decide⟩

/-- C2: a probe whose wait for the marker exceeds the deadline — the failure
carries the context-deadline-exceeded message — returns NotAvailable in both
the structural and the simple variants, and never Error. -/
theorem c2_deadline_is_not_available (keywords : List String) (msg : String)
    (h : goContains msg deadlineExceededSubstr = true) :
    checkTicketAvailability keywords (RunOutcome.err msg) = ProbeResult.NotAvailable ∧
    checkTicketAvailabilitySimple (SimpleRunOutcome.err msg) = ProbeResult.NotAvailable ∧
    ∀ cause, checkTicketAvailability keywords (RunOutcome.err msg) ≠
      ProbeResult.Error cause := by
  refine ⟨?_, ?_, ?_⟩
  · simp [checkTicketAvailability, h]
  · simp [checkTicketAvailabilitySimple, h]
  · intro cause
    simp [checkTicketAvailability, h]

/-- Witness for C2 at the literal deadline message produced by an expired
wait. -/
theorem c2_witness :
    checkTicketAvailability availabilityKeywords
        (RunOutcome.err deadlineExceededSubstr) = ProbeResult.NotAvailable :=
  (c2_deadline_is_not_available availabilityKeywords deadlineExceededSubstr
    (by decide)).1

/-- C10: outcome classification is a substring match on the failure message:
any failure whose message contains the deadline substring — from whatever
step, a timed-out navigation included — is NotAvailable with no error, and
any failure whose message lacks it is an operational Error, in both probe
variants. -/
theorem c10_classification_by_message_substring (keywords : List String)
    (msg : String) :
    (goContains msg deadlineExceededSubstr = true →
      checkTicketAvailability keywords (RunOutcome.err msg) = ProbeResult.NotAvailable ∧
      checkTicketAvailabilitySimple (SimpleRunOutcome.err msg) = ProbeResult.NotAvailable) ∧
    (goContains msg deadlineExceededSubstr = false →
      checkTicketAvailability keywords (RunOutcome.err msg) = ProbeResult.Error msg ∧
      checkTicketAvailabilitySimple (SimpleRunOutcome.err msg) = ProbeResult.Error msg) := by
  constructor
  · intro h
    constructor
    · simp [checkTicketAvailability, h]
    · simp [checkTicketAvailabilitySimple, h]
  · intro h
    constructor
    · simp [checkTicketAvailability, h]
    · simp [checkTicketAvailabilitySimple, h]

/-- Witness for C10: a navigation failure whose message embeds the deadline
substring is classified NotAvailable, while a browser-start failure without
it is an operational Error. -/
theorem c10_witness :
    checkTicketAvailability availabilityKeywords
        (RunOutcome.err "navigate tixcraft: context deadline exceeded") =
      ProbeResult.NotAvailable ∧
    checkTicketAvailability availabilityKeywords
        (RunOutcome.err "chrome failed to start") =
      ProbeResult.Error "chrome failed to start" :=
  ⟨((c10_classification_by_message_substring availabilityKeywords
        "navigate tixcraft: context deadline exceeded").1 (by decide)).1,
   ((c10_classification_by_message_substring availabilityKeywords
        "chrome failed to start").2 (by decide)).1⟩

/-- C3: a probe failure whose message lacks the deadline substring is
returned as Error in every variant, and on such an Error every runCheck
variant ends the cycle with no notification attempt, no auto-fill launch, no
process exit (the scheduler proceeds to the next tick) and the background
session untouched. -/
theorem c3_operational_error_ends_cycle (keywords : List String)
    (msg url : String) (send : SendOutcome) (autoFill : AutoFillRun)
    (h : goContains msg deadlineExceededSubstr = false) :
    checkTicketAvailability keywords (RunOutcome.err msg) = ProbeResult.Error msg ∧
    checkTicketAvailabilitySimple (SimpleRunOutcome.err msg) = ProbeResult.Error msg ∧
    runCheckNotifyContinue keywords (RunOutcome.err msg) send = noEffects ∧
    runCheckNotifyExit (SimpleRunOutcome.err msg) send = noEffects ∧
    runCheckAutoFill keywords url (RunOutcome.err msg) autoFill = noEffects := by
  refine ⟨?_, ?_, ?_, ?_, ?_⟩
  · simp [checkTicketAvailability, h]
  · simp [checkTicketAvailabilitySimple, h]
  · simp [runCheckNotifyContinue, checkTicketAvailability, h]
  · simp [runCheckNotifyExit, checkTicketAvailabilitySimple, h]
  · simp [runCheckAutoFill, checkTicketAvailability, h]

/-- Witness for C3 at a concrete browser-crash message. -/
theorem c3_witness :
    runCheckAutoFill availabilityKeywords "https://tixcraft.com/x"
        (RunOutcome.err "chrome crashed") AutoFillRun.ok = noEffects :=
  (c3_operational_error_ends_cycle availabilityKeywords "chrome crashed"
    "https://tixcraft.com/x" SendOutcome.success AutoFillRun.ok (by decide)).2.2.2.2

/-- C6: in the notify-and-exit variant, when the probe is Available the cycle
attempts exactly one email send; a successful send exits the process with
code 0, while a failed send is not retried and the process keeps monitoring
(no exit). -/
theorem c6_notify_and_exit_policy (run : SimpleRunOutcome) (text msg : String)
    (h : checkTicketAvailabilitySimple run = ProbeResult.Available text) :
    runCheckNotifyExit run SendOutcome.success = ⟨1, false, some 0, false, none⟩ ∧
    runCheckNotifyExit run (SendOutcome.failure msg) = ⟨1, false, none, false, none⟩ := by
  constructor
  · simp [runCheckNotifyExit, h]
  · simp [runCheckNotifyExit, h]

/-- Witness for C6: the marker was found; a successful send means exit 0 and
a failed send means one attempt and no exit. -/
theorem c6_witness :
    runCheckNotifyExit SimpleRunOutcome.ok SendOutcome.success =
      ⟨1, false, some 0, false, none⟩ ∧
    runCheckNotifyExit SimpleRunOutcome.ok (SendOutcome.failure "dial tcp refused") =
      ⟨1, false, none, false, none⟩ :=
  c6_notify_and_exit_policy SimpleRunOutcome.ok "" "dial tcp refused" rfl

/-- C7: every failure of a scripted auto-fill step is returned as an error by
autoFillAndWaitForCaptcha, and the caller's cycle records the auto-fill
launch, logs the manual-fallback instruction — which contains the target URL
as a substring — and keeps the monitoring loop alive (no exit). -/
theorem c7_autofill_failure_manual_fallback (keywords : List String)
    (url msg text : String) (run : RunOutcome)
    (h : checkTicketAvailability keywords run = ProbeResult.Available text) :
    autoFillAndWaitForCaptcha (AutoFillRun.err msg) = Except.error msg ∧
    runCheckAutoFill keywords url run (AutoFillRun.err msg) =
      ⟨0, true, none, false, some (manualFallbackMsg url)⟩ ∧
    goContains (manualFallbackMsg url) url = true := by
  refine ⟨rfl, ?_, ?_⟩
  · simp [runCheckAutoFill, h, autoFillAndWaitForCaptcha]
  · show charsContain url.data (manualFallbackMsg url).data = true
    have hdata : (manualFallbackMsg url).data = "請手動前往: ".data ++ url.data := by
      simp [manualFallbackMsg]
    rw [hdata]
    exact charsContain_append_left "請手動前往: ".data url.data

/-- Witness for C7: a missing form selector (wait timeout inside the script)
surfaces as an error and produces the fallback log with the URL. -/
theorem c7_witness :
    runCheckAutoFill availabilityKeywords "https://tixcraft.com/x"
        (RunOutcome.ok ["剩餘 5 張"]) (AutoFillRun.err "ticketPriceList wait timed out") =
      ⟨0, true, none, false, some (manualFallbackMsg "https://tixcraft.com/x")⟩ :=
  (c7_autofill_failure_manual_fallback availabilityKeywords "https://tixcraft.com/x"
    "ticketPriceList wait timed out" "剩餘 5 張" (RunOutcome.ok ["剩餘 5 張"])
    (by decide)).2.1

/-- C4: initBrowser always tears the previously published background session
down before publishing the fresh one, so from any state where the live
sessions are exactly the published handle, one call publishes the fresh
session and leaves it as the single live one, and a second call in sequence
still leaves exactly one live background session. -/
theorem c4_single_background_session (s : BrowserState)
    (h : s.live = s.current.toList) :
    (initBrowser s).current = some s.nextId ∧
    (initBrowser s).live = (initBrowser s).current.toList ∧
    (initBrowser s).live.length = 1 ∧
    (initBrowser (initBrowser s)).live.length = 1 := by
  have key : ∀ t : BrowserState, t.live = t.current.toList →
      (initBrowser t).current = some t.nextId ∧
      (initBrowser t).live = (initBrowser t).current.toList := by
    intro t ht
    cases hc : t.current with
    | none =>
      rw [hc] at ht
      simp [initBrowser, hc, ht]
    | some id =>
      rw [hc] at ht
      simp [initBrowser, hc, ht]
  obtain ⟨h1, h2⟩ := key s h
  refine ⟨h1, h2, ?_, ?_⟩
  · rw [h2, h1]; rfl
  · obtain ⟨h1', h2'⟩ := key (initBrowser s) h2
    rw [h2', h1']; rfl

/-- Witness for C4 from the never-started state: two calls in sequence leave
exactly one live background session. -/
theorem c4_witness :
    (initBrowser (initBrowser initialBrowserState)).live.length = 1 :=
  (c4_single_background_session initialBrowserState rfl).2.2.2

/-- C8: when every scripted step succeeds, autoFillAndWaitForCaptcha returns
success, its trace holds the session open for the fixed 3-minute (180 s)
human-completion window, and the session close happens strictly after that
window, never before it. -/
theorem c8_hold_window_before_close :
    autoFillAndWaitForCaptcha AutoFillRun.ok = Except.ok () ∧
    AutoFillEvent.holdOpen humanCompletionWindowSeconds ∈ autoFillTrace AutoFillRun.ok ∧
    (autoFillTrace AutoFillRun.ok).indexOf
        (AutoFillEvent.holdOpen humanCompletionWindowSeconds) <
      (autoFillTrace AutoFillRun.ok).indexOf AutoFillEvent.closeSession ∧
    humanCompletionWindowSeconds = 180 := by
  refine ⟨rfl, ?_, ?_, rfl⟩
  · decide
  · decide

lemma scheduleAux_getD_zero (interval q start d : Nat) (ds : List Nat) :
    (scheduleAux interval q start (d :: ds)).getD 0 (0, 0) = (start, start + d) := by
  simp [scheduleAux]

/-- Stepping relation between consecutive scheduled cycles: provided the
pending fire time is a multiple of the interval no earlier than the first
one, each next cycle starts no earlier than the previous cycle's end, never
before the first interval has elapsed, and either exactly when the previous
cycle ends (a delayed, immediately consumed tick) or on a ticker fire (a
multiple of the interval). -/
lemma scheduleAux_adjacent (interval : Nat) (ds : List Nat) :
    ∀ q start : Nat, interval ∣ q → interval ≤ q →
    ∀ i, i + 1 < ds.length →
      ((scheduleAux interval q start ds).getD (i + 1) (0, 0)).1 ≥
        ((scheduleAux interval q start ds).getD i (0, 0)).2 ∧
      interval ≤ ((scheduleAux interval q start ds).getD (i + 1) (0, 0)).1 ∧
      (((scheduleAux interval q start ds).getD (i + 1) (0, 0)).1 =
          ((scheduleAux interval q start ds).getD i (0, 0)).2 ∨
        interval ∣ ((scheduleAux interval q start ds).getD (i + 1) (0, 0)).1) := by
  induction ds with
  | nil =>
    intro q start _ _ i hi
    simp at hi
  | cons d ds ih =>
    intro q start hdvd hle i hi
    cases i with
    | zero =>
      cases ds with
      | nil => simp at hi
      | cons d' ds' =>
        simp only [scheduleAux, List.getD_cons_succ, List.getD_cons_zero]
        refine ⟨le_max_left _ _, le_trans hle (le_max_right _ _), ?_⟩
        rcases max_choice (start + d) q with hm | hm
        · exact Or.inl hm
        · refine Or.inr ?_
          rw [hm]
          exact hdvd
    | succ j =>
      have hdvd' : interval ∣ interval * (max (start + d) q / interval + 1) :=
        dvd_mul_right interval _
      have hle' : interval ≤ interval * (max (start + d) q / interval + 1) := by
        calc interval = interval * 1 := (mul_one interval).symm
          _ ≤ interval * (max (start + d) q / interval + 1) :=
            Nat.mul_le_mul_left interval (Nat.succ_le_succ (Nat.zero_le _))
      have hj : j + 1 < ds.length := by
        simpa using hi
      simpa only [scheduleAux, List.getD_cons_succ] using
        ih (interval * (max (start + d) q / interval + 1)) (max (start + d) q)
          hdvd' hle' j hj

/-- C5: the scheduler runs the first check immediately at startup (cycle 0
starts at time 0, before the first interval has elapsed), and every later
cycle starts no earlier than the previous cycle's end — a cycle outlasting
the interval delays the next start to its own end rather than overlapping —
and no later cycle starts before one full interval; each later start is
either exactly the previous cycle's end or a ticker fire time (a multiple of
the configured interval). -/
theorem c5_scheduler_sequencing (interval : Nat) (ds : List Nat) :
    (ds ≠ [] → ((schedule interval ds).getD 0 (0, 0)).1 = 0) ∧
    (∀ i, i + 1 < ds.length →
      ((schedule interval ds).getD (i + 1) (0, 0)).1 ≥
        ((schedule interval ds).getD i (0, 0)).2 ∧
      interval ≤ ((schedule interval ds).getD (i + 1) (0, 0)).1 ∧
      (((schedule interval ds).getD (i + 1) (0, 0)).1 =
          ((schedule interval ds).getD i (0, 0)).2 ∨
        interval ∣ ((schedule interval ds).getD (i + 1) (0, 0)).1)) := by
  constructor
  · intro h
    cases ds with
    | nil => exact absurd rfl h
    | cons d ds => simp [schedule, scheduleAux]
  · intro i hi
    exact scheduleAux_adjacent interval ds interval 0 (dvd_refl interval)
      (le_refl interval) i hi

/-- Witness for C5 with a 60-second interval and a middle cycle lasting 100
seconds: the first check runs at time 0 and the cycle after the long one
starts no earlier than the long cycle's end. -/
theorem c5_witness :
    ((schedule 60 [5, 100, 2]).getD 0 (0, 0)).1 = 0 ∧
    ((schedule 60 [5, 100, 2]).getD 2 (0, 0)).1 ≥
      ((schedule 60 [5, 100, 2]).getD 1 (0, 0)).2 :=
  ⟨(c5_scheduler_sequencing 60 [5, 100, 2]).1 (by decide),
   ((c5_scheduler_sequencing 60 [5, 100, 2]).2 1 (by decide)).1⟩

/-- Everything a successful loadConfig guarantees: all required settings are
non-empty (the password after space stripping), both numeric settings parsed
— after defaulting — to exactly the recorded port and interval, and the
target URL is recorded verbatim. -/
lemma loadConfig_ok_shape (env : Env) (c : Config)
    (h : loadConfig env = Except.ok c) :
    env.targetUrlVar ≠ "" ∧ env.recipientEmailVar ≠ "" ∧
    env.senderEmailVar ≠ "" ∧ stripSpaces env.senderPasswordVar ≠ "" ∧
    env.smtpHostVar ≠ "" ∧
    goAtoi (if env.smtpPortVar = "" then defaultSmtpPortStr else env.smtpPortVar)
      = some c.smtpPort ∧
    goAtoi (if env.checkIntervalVar = "" then defaultIntervalStr
      else env.checkIntervalVar) = some c.checkIntervalSeconds ∧
    c.targetURL = env.targetUrlVar := by
  unfold loadConfig at h
  split at h
  · exact Except.noConfusion h
  next port hport =>
    split at h
    · exact Except.noConfusion h
    next interval hinterval =>
      split at h
      · exact Except.noConfusion h
      next htgt =>
        split at h
        · exact Except.noConfusion h
        next hrcpt =>
          split at h
          · exact Except.noConfusion h
          next hsender =>
            split at h
            · exact Except.noConfusion h
            next hpw =>
              split at h
              · exact Except.noConfusion h
              next hhost =>
                injection h with h'
                subst h'
                exact ⟨htgt, hrcpt, hsender, hpw, hhost, hport, hinterval, rfl⟩

/-- C9 counterexample: with every required setting present and the interval
string 0, loadConfig accepts a configuration whose check interval is zero
seconds — below the claimed one-second minimum — and startup proceeds to
scheduling. -/
theorem c9_counterexample :
    loadConfig c9BadEnv = Except.ok c9BadConfig ∧
    mainStartup c9BadEnv = StartupOutcome.scheduling c9BadConfig ∧
    c9BadConfig.checkIntervalSeconds = 0 ∧
    ¬(1 ≤ c9BadConfig.checkIntervalSeconds) := by
  exact ⟨rfl, rfl, rfl, by decide⟩

/-- C9 as amended: startup is fatal — scheduling is never reached — for every
unset required setting and for every set but non-numeric SMTP_PORT or
CHECK_INTERVAL_SECONDS; when startup does reach scheduling, an unset
SMTP_PORT has defaulted to 587 and an unset CHECK_INTERVAL_SECONDS to 60
seconds, and the accepted interval is exactly the parsed integer, on which
no one-second lower bound is enforced. -/
theorem c9_amended_config_validation (env : Env) :
    ((env.targetUrlVar = "" ∨ env.recipientEmailVar = "" ∨
      env.senderEmailVar = "" ∨ stripSpaces env.senderPasswordVar = "" ∨
      env.smtpHostVar = "" ∨
      (env.smtpPortVar ≠ "" ∧ goAtoi env.smtpPortVar = none) ∨
      (env.checkIntervalVar ≠ "" ∧ goAtoi env.checkIntervalVar = none)) →
      (mainStartup env).isFatal = true) ∧
    (∀ c, mainStartup env = StartupOutcome.scheduling c →
      (env.smtpPortVar = "" → c.smtpPort = 587) ∧
      (env.checkIntervalVar = "" → c.checkIntervalSeconds = 60) ∧
      goAtoi (if env.checkIntervalVar = "" then defaultIntervalStr
        else env.checkIntervalVar) = some c.checkIntervalSeconds) := by
  constructor
  · intro hbad
    cases hl : loadConfig env with
    | error m => simp [mainStartup, StartupOutcome.isFatal, hl]
    | ok c =>
      exfalso
      obtain ⟨h1, h2, h3, h4, h5, h6, h7, _⟩ := loadConfig_ok_shape env c hl
      rcases hbad with h | h | h | h | h | ⟨hne, hnone⟩ | ⟨hne, hnone⟩
      · exact h1 h
      · exact h2 h
      · exact h3 h
      · exact h4 h
      · exact h5 h
      · rw [if_neg hne, hnone] at h6
        exact Option.noConfusion h6
      · rw [if_neg hne, hnone] at h7
        exact Option.noConfusion h7
  · intro c hc
    have hl : loadConfig env = Except.ok c := by
      unfold mainStartup at hc
      cases hl' : loadConfig env with
      | error m =>
        rw [hl'] at hc
        exact StartupOutcome.noConfusion hc
      | ok c' =>
        rw [hl'] at hc
        injection hc with h'
        rw [h']
    obtain ⟨_, _, _, _, _, h6, h7, _⟩ := loadConfig_ok_shape env c hl
    refine ⟨?_, ?_, h7⟩
    · intro hp
      rw [if_pos hp] at h6
      have hd : goAtoi defaultSmtpPortStr = some (587 : Int) := by decide
      rw [hd] at h6
      injection h6 with h6'
      exact h6'.symm
    · intro hi
      rw [if_pos hi] at h7
      have hd : goAtoi defaultIntervalStr = some (60 : Int) := by decide
      rw [hd] at h7
      injection h7 with h7'
      exact h7'.symm

/-- Witness for the amended C9: an environment with TARGET_URL unset dies at
startup before scheduling. -/
theorem c9_witness :
    (mainStartup envMissingTarget).isFatal = true :=
  (c9_amended_config_validation envMissingTarget).1 (Or.inl rfl)

end TicketChecker
